import Mathlib

/-!
Verification of the one-app PWA delivery subsystem and the HTML sending
helpers, shallowly embedded from the repository sources.

The PWA configuration store, worker-variant selector and router are
exercised by the repository only through their test suite
(`__tests__/server/routes/pwa.spec.js`); the implementation files are not
part of this slice, so those components are modelled from the component
contracts of the spec (sections 3, 4.1-4.4).  The `safeSend`,
`renderStaticErrorPage` and `loadPWA` functions are translated directly
from the sources present in the repository.
-/

namespace OneApp

/-! ## JSON values (manifest payloads)

Modelled from the spec: the manifest is "a JSON document"; the router
serves "the JSON serialization of the configured `manifest` object".
The three mutually inductive types encode JSON values, JSON arrays and
JSON object field lists. -/

mutual

inductive JsonValue where
  | jnull : JsonValue
  | jbool : Bool → JsonValue
  | jnum : Int → JsonValue
  | jstr : String → JsonValue
  | jarr : JsonList → JsonValue
  | jobj : JsonFields → JsonValue

inductive JsonList where
  | nil : JsonList
  | cons : JsonValue → JsonList → JsonList

inductive JsonFields where
  | nil : JsonFields
  | cons : String → JsonValue → JsonFields → JsonFields

end

/-- One escaped character of a JSON string literal (quote and backslash
get a backslash escape, as in `JSON.stringify`). -/
def escapeJsonChar (c : Char) : String :=
  if c = '"' then "\\\""
  else if c = '\\' then "\\\\"
  else String.singleton c

/-- A JSON string literal: the escaped characters between double quotes. -/
def quoteJsonString (s : String) : String :=
  "\"" ++ String.join (s.toList.map escapeJsonChar) ++ "\""

mutual

/-- Modelled from the spec: JSON serialization of a manifest value, as
`JSON.stringify` produces it (no whitespace, fields in order). -/
def JsonValue.stringify : JsonValue → String
  | .jnull => "null"
  | .jbool true => "true"
  | .jbool false => "false"
  | .jnum n => toString n
  | .jstr s => quoteJsonString s
  | .jarr xs => "[" ++ JsonList.stringifyItems xs ++ "]"
  | .jobj fs => "\x7b" ++ JsonFields.stringifyItems fs ++ "\x7d"

/-- Comma-separated serializations of the items of a JSON array. -/
def JsonList.stringifyItems : JsonList → String
  | .nil => ""
  | .cons x .nil => x.stringify
  | .cons x (.cons y ys) =>
    x.stringify ++ "," ++ JsonList.stringifyItems (.cons y ys)

/-- Comma-separated `"key":value` serializations of the fields of a JSON
object. -/
def JsonFields.stringifyItems : JsonFields → String
  | .nil => ""
  | .cons k v .nil => quoteJsonString k ++ ":" ++ v.stringify
  | .cons k v (.cons k2 v2 fs) =>
    quoteJsonString k ++ ":" ++ v.stringify ++ "," ++
      JsonFields.stringifyItems (.cons k2 v2 fs)

end

/-! ## PWA configuration store -/

/-- Modelled from the spec (section 3): the process-wide PWA
configuration snapshot.  `scope`/`manifest` are `Option`s whose `none`
stands for the JavaScript `undefined` default. -/
structure PWAConfig where
  enabled : Bool
  noop : Bool
  escapeHatch : Bool
  scope : Option String
  manifest : Option JsonValue

/-- Modelled from the spec: the all-default configuration present at
process start: `enabled:false, noop:false, escapeHatch:false,
scope:undefined, manifest:undefined`. -/
def defaultConfig : PWAConfig :=
  ⟨false, false, false, none, none⟩

/-- Modelled from the spec (section 4.1): the argument of `configure` is
"a partial set of recognized options `{enabled, noop, escapeHatch, scope,
manifest}`"; `none` marks an omitted option.  `unrecognized` carries any
unrecognized keys, which `configure` ignores. -/
structure ConfigureOptions where
  enabled : Option Bool
  noop : Option Bool
  escapeHatch : Option Bool
  scope : Option String
  manifest : Option JsonValue
  unrecognized : List (String × JsonValue)

/-- Modelled from the spec (section 4.1): the snapshot a `configure` call
installs — the defaults merged only with the options supplied in that
call.  Unrecognized keys are ignored. -/
def configureSnapshot (o : ConfigureOptions) : PWAConfig :=
  ⟨o.enabled.getD false, o.noop.getD false, o.escapeHatch.getD false,
    o.scope, o.manifest⟩

/-- Modelled from the spec (sections 3, 4.1): `configurePWA` "replaces
the entire configuration with defaults merged only with the fields
explicitly supplied in that call — it is not an incremental patch over
the prior state".  The prior snapshot is therefore discarded. -/
def configurePWA (_prev : PWAConfig) (o : ConfigureOptions) : PWAConfig :=
  configureSnapshot o

/-- Every configuration snapshot the store ever holds, in order, when it
starts at `init` and the given `configure` calls are applied one at a
time: the single-assignment discipline of the spec (section 4.1). -/
def storeStates (init : PWAConfig) : List ConfigureOptions → List PWAConfig
  | [] => [init]
  | o :: rest => init :: storeStates (configurePWA init o) rest

/-! ## Worker response selector and router -/

/-- Modelled from the spec (section 4.3): the three service-worker
script variants. -/
inductive WorkerVariant where
  | escapeHatchWorker : WorkerVariant
  | noopWorker : WorkerVariant
  | fullWorker : WorkerVariant
deriving DecidableEq

/-- Modelled from the spec (section 4.2): the literal text of the full
service-worker script, loaded once at startup. -/
def serviceWorkerScript : String := "[service-worker-script]"

/-- Modelled from the spec (section 4.2): the literal text of the noop
service-worker script. -/
def serviceWorkerNoopScript : String := "[service-worker-noop-script]"

/-- Modelled from the spec (section 4.2): the literal text of the
escape-hatch service-worker script. -/
def serviceWorkerEscapeHatchScript : String :=
  "[service-worker-escape-hatch-script]"

/-- The script text served for each worker variant. -/
def scriptFor : WorkerVariant → String
  | .escapeHatchWorker => serviceWorkerEscapeHatchScript
  | .noopWorker => serviceWorkerNoopScript
  | .fullWorker => serviceWorkerScript

/-- Modelled from the spec (section 4.3): `selectWorkerVariant(config)`,
precedence evaluated top to bottom, first match wins:
`escapeHatch` → `noop` → `enabled` → not found (`none`). -/
def selectWorkerVariant (c : PWAConfig) : Option WorkerVariant :=
  if c.escapeHatch then some .escapeHatchWorker
  else if c.noop then some .noopWorker
  else if c.enabled then some .fullWorker
  else none

/-- The observable parts of an HTTP response of the PWA router: status,
optional `Content-Type`, optional `Service-Worker-Allowed`, body. -/
structure HttpResponse where
  status : Nat
  contentType : Option String
  serviceWorkerAllowed : Option String
  body : String
deriving DecidableEq

/-- A plain 404 response (the spec fixes no body for it). -/
def notFoundResponse : HttpResponse :=
  ⟨404, none, none, ""⟩

/-- Modelled from the spec (section 4.4): the body of the manifest
endpoint is the JSON serialization of the configured manifest; a missing
manifest while enabled is left unspecified by the spec (caller
responsibility), rendered here as the empty body. -/
def serializeManifest : Option JsonValue → String
  | some m => m.stringify
  | none => ""

/-- Modelled from the spec (section 4.4): `GET` of the worker endpoint.
Runs the selector on the snapshot; on a hit serves the script text with
content type `application/javascript; charset=utf-8` and the
`Service-Worker-Allowed` header exactly when `scope` is set. -/
def serveWorker (c : PWAConfig) : HttpResponse :=
  match selectWorkerVariant c with
  | none => notFoundResponse
  | some v =>
    ⟨200, some "application/javascript; charset=utf-8", c.scope, scriptFor v⟩

/-- Modelled from the spec (section 4.4): `GET` of the manifest endpoint.
404 when `enabled` is false, otherwise 200 with content type
`application/manifest+json; charset=utf-8` and the serialized manifest. -/
def serveManifest (c : PWAConfig) : HttpResponse :=
  if c.enabled then
    ⟨200, some "application/manifest+json; charset=utf-8", none,
      serializeManifest c.manifest⟩
  else notFoundResponse

/-- The manifest of the test suite:
`{name: 'One App', short_name: 'one-app'}`. -/
def mockManifest : JsonValue :=
  .jobj (.cons "name" (.jstr "One App")
    (.cons "short_name" (.jstr "one-app") .nil))

/-! ## sendHtml helpers (`safeSend`, `renderStaticErrorPage`)

Translated from the `sendHtml` source file.  An Express response is
embedded as its observable state: whether headers were sent, the status
code (`0` stands for the unset/falsy `res.statusCode` that
`if (!res.statusCode)` tests), and the list of `send` calls that reached
the wire, each with its payload list (`res.send(...payload)`). -/

structure ExpressRes where
  headersSent : Bool
  statusCode : Nat
  sent : List (List String)

/-- Express `res.send(...payload)`: marks headers as sent and records
the payload. -/
def ExpressRes.send (res : ExpressRes) (payload : List String) : ExpressRes :=
  ⟨true, res.statusCode, res.sent ++ [payload]⟩

/-- Express `res.status(code)`. -/
def ExpressRes.status (res : ExpressRes) (code : Nat) : ExpressRes :=
  ⟨res.headersSent, code, res.sent⟩

/-- Translated from the source, `safeSend(res, ...payload)`:
send only when `res.headersSent` is still false. -/
def safeSend (res : ExpressRes) (payload : List String) : ExpressRes :=
  if res.headersSent then res else res.send payload

/-- The default message of `renderStaticErrorPage` (kept when retrying
could help). -/
def retryMessage : String :=
  "Sorry, we are unable to load this page at this time. Please try again later."

/-- The message `renderStaticErrorPage` switches to for 4xx statuses
other than 404, where retrying will not change the server response. -/
def noRetryMessage : String :=
  "Sorry, we are unable to load this page at this time."

/-- The message selection of `renderStaticErrorPage`:
`let message = retry...; if (statusCode >= 400 && statusCode < 500 &&
statusCode !== 404) message = noRetry...`. -/
def errorPageMessage (code : Nat) : String :=
  if 400 ≤ code ∧ code < 500 ∧ code ≠ 404 then noRetryMessage
  else retryMessage

/-- The static error page HTML before the interpolated message. -/
def staticErrorPageHead : String :=
  "<!DOCTYPE html>\n        <html>\n          <head>\n            <title>One App</title>\n            <meta http-equiv=\"X-UA-Compatible\" content=\"IE=edge\">\n            <meta charset=\"utf-8\">\n            <meta name=\"viewport\" content=\"width=device-width, initial-scale=1\">\n            <meta name=\"application-name\" content=\"one-app\">\n          </head>\n          <body style=\"background-color: #F0F0F0\">\n            <div id=\"root\">\n              <div>\n                <div style=\"width: 70%; background-color: white; margin: 4% auto;\">\n                  <h2 style=\"display: flex; justify-content: center; padding: 40px 15px 0px;\">Loading Error</h2>\n                  <p style=\"display: flex; justify-content: center; padding: 10px 15px 40px;\">\n                    "

/-- The static error page HTML after the interpolated message. -/
def staticErrorPageTail : String :=
  "\n                  </p>\n                </div>\n              </div>\n            </div>\n          </body>\n        </html>"

/-- The full static error page document with the given message
interpolated. -/
def staticErrorPage (message : String) : String :=
  staticErrorPageHead ++ message ++ staticErrorPageTail

/-- Translated from the source, `renderStaticErrorPage(res)`: defaults
the status to 500 when unset, picks the message from the (possibly
defaulted) status code, and sends the page through `safeSend`. -/
def renderStaticErrorPage (res : ExpressRes) : ExpressRes :=
  let res1 := if res.statusCode = 0 then res.status 500 else res
  safeSend res1 [staticErrorPage (errorPageMessage res1.statusCode)]

/-! ## Client prerender (`loadPWA`)

Translated from `src/client/prerender.js`.  Promise settlement is
embedded as `Except`: `loadPWA` receives the settled outcome of
`initializePWA(store)` (which runs once the window `load` event fires)
and the store is its list of dispatched actions. -/

inductive ReduxAction where
  | addErrorToReport : String → ReduxAction
deriving DecidableEq

/-- Translated from the source, `loadPWA(store)`: resolves with the
resolution of `initializePWA`, and on rejection catches the error and
dispatches `addErrorToReport(error)` to the store, resolving anyway
(the promise returned by the `.catch` call resolves). -/
def loadPWA (initResult : Except String Unit) (store : List ReduxAction) :
    Except String Unit × List ReduxAction :=
  match initResult with
  | .ok u => (.ok u, store)
  | .error e => (.ok (), store ++ [ReduxAction.addErrorToReport e])

/-! ## Claims -/

/-- C1: for every configuration snapshot, the worker endpoint follows
the fixed precedence, first match wins: `escapeHatch` true serves the
escape-hatch script with 200 regardless of `noop` and `enabled`;
otherwise `noop` true serves the noop script with 200 regardless of
`enabled`; otherwise `enabled` true serves the full script with 200;
otherwise the response is 404. -/
theorem worker_variant_precedence (c : PWAConfig) :
    (c.escapeHatch = true →
      serveWorker c = ⟨200, some "application/javascript; charset=utf-8",
        c.scope, serviceWorkerEscapeHatchScript⟩) ∧
    (c.escapeHatch = false → c.noop = true →
      serveWorker c = ⟨200, some "application/javascript; charset=utf-8",
        c.scope, serviceWorkerNoopScript⟩) ∧
    (c.escapeHatch = false → c.noop = false → c.enabled = true →
      serveWorker c = ⟨200, some "application/javascript; charset=utf-8",
        c.scope, serviceWorkerScript⟩) ∧
    (c.escapeHatch = false → c.noop = false → c.enabled = false →
      (serveWorker c).status = 404) := by
  obtain ⟨en, np, eh, sc, mf⟩ := c
  cases eh <;> cases np <;> cases en <;>
    refine ⟨?_, ?_, ?_, ?_⟩ <;> intros <;>
      simp_all [serveWorker, selectWorkerVariant, scriptFor, notFoundResponse]

/-- Witness for C1: with `enabled` and `noop` both requested and
`escapeHatch` false, the noop script wins. -/
theorem worker_variant_precedence_witness :
    serveWorker ⟨true, true, false, none, none⟩ =
      ⟨200, some "application/javascript; charset=utf-8", none,
        serviceWorkerNoopScript⟩ :=
  (worker_variant_precedence ⟨true, true, false, none, none⟩).2.1 rfl rfl

/-- C2: a `configure` call replaces the entire configuration, resetting
omitted fields to their defaults whatever the prior state was:
`configure({enabled:false})` yields the all-defaults snapshot,
`configure({noop:true})` yields a snapshot with `enabled` and
`escapeHatch` false and `scope`/`manifest` undefined, and in general the
resulting snapshot does not depend on the prior state. -/
theorem configure_full_replace (prev : PWAConfig) :
    configurePWA prev ⟨some false, none, none, none, none, []⟩ =
      defaultConfig ∧
    configurePWA prev ⟨none, some true, none, none, none, []⟩ =
      ⟨false, true, false, none, none⟩ ∧
    ∀ o : ConfigureOptions, configurePWA prev o = configureSnapshot o :=
  ⟨rfl, rfl, fun _ => rfl⟩

/-- C3: with `enabled` true and a defined manifest, the manifest
endpoint returns 200, content type
`application/manifest+json; charset=utf-8`, and the JSON serialization
of the configured manifest, verbatim. -/
theorem manifest_served_verbatim (c : PWAConfig) (m : JsonValue)
    (he : c.enabled = true) (hm : c.manifest = some m) :
    serveManifest c =
      ⟨200, some "application/manifest+json; charset=utf-8", none,
        m.stringify⟩ := by
  simp [serveManifest, he, hm, serializeManifest]

/-- Witness for C3: the manifest of the test suite is served as
`{"name":"One App","short_name":"one-app"}`. -/
theorem manifest_served_verbatim_witness :
    serveManifest ⟨true, false, false, none, some mockManifest⟩ =
      ⟨200, some "application/manifest+json; charset=utf-8", none,
        "\x7b\"name\":\"One App\",\"short_name\":\"one-app\"\x7d"⟩ := by
  rw [manifest_served_verbatim ⟨true, false, false, none, some mockManifest⟩
    mockManifest rfl rfl]
  decide

/-- C4: after `configure({enabled:false})` both the worker endpoint and
the manifest endpoint return 404, and in general the manifest endpoint
returns 404 whenever `enabled` is false. -/
theorem disabled_returns_404 (prev : PWAConfig) (c : PWAConfig)
    (hc : c.enabled = false) :
    (serveWorker
      (configurePWA prev ⟨some false, none, none, none, none, []⟩)).status
        = 404 ∧
    (serveManifest
      (configurePWA prev ⟨some false, none, none, none, none, []⟩)).status
        = 404 ∧
    (serveManifest c).status = 404 := by
  refine ⟨rfl, rfl, ?_⟩
  simp [serveManifest, hc, notFoundResponse]

/-- Witness for C4: disabling after a fully populated prior state yields
404 on both endpoints. -/
theorem disabled_returns_404_witness :
    (serveWorker
      (configurePWA ⟨true, true, true, some "/s", some mockManifest⟩
        ⟨some false, none, none, none, none, []⟩)).status = 404 ∧
    (serveManifest
      (configurePWA ⟨true, true, true, some "/s", some mockManifest⟩
        ⟨some false, none, none, none, none, []⟩)).status = 404 ∧
    (serveManifest defaultConfig).status = 404 :=
  disabled_returns_404 ⟨true, true, true, some "/s", some mockManifest⟩
    defaultConfig rfl

/-- C5: whenever a worker variant is selected, the 200 worker response
carries a `Service-Worker-Allowed` header equal to the configured scope
exactly when `scope` is set, and no such header when `scope` is unset. -/
theorem scope_header_iff_scope_set (c : PWAConfig)
    (h : (selectWorkerVariant c).isSome = true) :
    (∀ s : String, c.scope = some s →
      (serveWorker c).serviceWorkerAllowed = some s) ∧
    (c.scope = none → (serveWorker c).serviceWorkerAllowed = none) := by
  cases hv : selectWorkerVariant c with
  | none => rw [hv] at h; exact absurd h (by decide)
  | some v =>
    constructor
    · intro s hs
      simp [serveWorker, hv, hs]
    · intro hs
      simp [serveWorker, hv, hs]

/-- Witness for C5: with the scope of the test suite configured, the
header holds exactly that scope. -/
theorem scope_header_iff_scope_set_witness :
    (serveWorker ⟨true, false, false, some "/nested/scope", none⟩
      ).serviceWorkerAllowed = some "/nested/scope" :=
  (scope_header_iff_scope_set
    ⟨true, false, false, some "/nested/scope", none⟩ rfl).1
    "/nested/scope" rfl

/-- C6: worker-variant selection is a total, deterministic function of
`escapeHatch`, `noop` and `enabled` only: two snapshots agreeing on
those three fields select the same result, and a snapshot never selects
two different variants. -/
theorem selector_depends_only_on_flags (c₁ c₂ : PWAConfig)
    (h₁ : c₁.escapeHatch = c₂.escapeHatch) (h₂ : c₁.noop = c₂.noop)
    (h₃ : c₁.enabled = c₂.enabled) :
    selectWorkerVariant c₁ = selectWorkerVariant c₂ ∧
    ∀ v w : WorkerVariant, selectWorkerVariant c₁ = some v →
      selectWorkerVariant c₁ = some w → v = w := by
  constructor
  · unfold selectWorkerVariant
    rw [h₁, h₂, h₃]
  · intro v w hv hw
    rw [hv] at hw
    exact Option.some.inj hw

/-- Witness for C6: two snapshots differing only in `scope` and
`manifest` select the same variant. -/
theorem selector_depends_only_on_flags_witness :
    selectWorkerVariant ⟨true, false, true, none, none⟩ =
      selectWorkerVariant
        ⟨true, false, true, some "/nested/scope", some mockManifest⟩ :=
  (selector_depends_only_on_flags ⟨true, false, true, none, none⟩
    ⟨true, false, true, some "/nested/scope", some mockManifest⟩
    rfl rfl rfl).1

/-- C7: `configure` always succeeds and ignores unrecognized keys, and
the store evolves by whole-snapshot replacement only: every snapshot any
reader can ever observe is the initial configuration or exactly the
snapshot installed by one of the `configure` calls — never a partially
applied mixture. -/
theorem configure_total_and_atomic :
    (∀ (e n eh : Option Bool) (s : Option String) (m : Option JsonValue)
      (u u' : List (String × JsonValue)),
      configureSnapshot ⟨e, n, eh, s, m, u⟩ =
        configureSnapshot ⟨e, n, eh, s, m, u'⟩) ∧
    (∀ (init : PWAConfig) (ops : List ConfigureOptions) (s : PWAConfig),
      s ∈ storeStates init ops →
      s = init ∨ ∃ o ∈ ops, s = configureSnapshot o) := by
  constructor
  · intros
    rfl
  · intro init ops
    induction ops generalizing init with
    | nil =>
      intro s hs
      left
      simpa [storeStates] using hs
    | cons o rest ih =>
      intro s hs
      rw [storeStates, List.mem_cons] at hs
      rcases hs with h | h
      · left
        exact h
      · rcases ih (configurePWA init o) s h with h' | ⟨o', ho', hso'⟩
        · right
          exact ⟨o, List.mem_cons_self o rest, h'⟩
        · right
          exact ⟨o', List.mem_cons_of_mem o ho', hso'⟩

/-- Witness for C7: on the trace of a single `configure({enabled:true})`
call starting from the defaults, the initial snapshot observed is the
default one or an installed snapshot. -/
theorem configure_total_and_atomic_witness :
    defaultConfig = defaultConfig ∨
    ∃ o ∈ ([⟨some true, none, none, none, none, []⟩] :
        List ConfigureOptions),
      defaultConfig = configureSnapshot o :=
  configure_total_and_atomic.2 defaultConfig
    [⟨some true, none, none, none, none, []⟩] defaultConfig
    (by simp [storeStates])

/-- C8: `safeSend(res, ...payload)` forwards to `res.send` exactly when
`res.headersSent` is false, leaves the response unchanged when it is
true, and consequently a second `safeSend` never sends again. -/
theorem safeSend_sends_once (res : ExpressRes) (p q : List String) :
    (res.headersSent = false → safeSend res p = res.send p) ∧
    (res.headersSent = true → safeSend res p = res) ∧
    safeSend (safeSend res p) q = safeSend res p := by
  obtain ⟨hs, code, sent⟩ := res
  cases hs
  · exact ⟨fun _ => rfl, fun h => Bool.noConfusion h, rfl⟩
  · exact ⟨fun h => Bool.noConfusion h, fun _ => rfl, rfl⟩

/-- Witness for C8: a fresh response is sent to, and a second attempt on
the resulting response changes nothing. -/
theorem safeSend_sends_once_witness :
    safeSend ⟨false, 200, []⟩ ["page"] =
      ExpressRes.send ⟨false, 200, []⟩ ["page"] ∧
    safeSend (safeSend ⟨false, 200, []⟩ ["page"]) ["again"] =
      safeSend ⟨false, 200, []⟩ ["page"] :=
  ⟨(safeSend_sends_once ⟨false, 200, []⟩ ["page"] ["again"]).1 rfl,
    (safeSend_sends_once ⟨false, 200, []⟩ ["page"] ["again"]).2.2⟩

/-- The two error page messages differ. -/
theorem messages_distinct : noRetryMessage ≠ retryMessage := by
  decide

/-- The status code `renderStaticErrorPage` leaves on the response: 500
when it was unset, otherwise the original one. -/
theorem renderStaticErrorPage_statusCode (res : ExpressRes) :
    (renderStaticErrorPage res).statusCode =
      if res.statusCode = 0 then 500 else res.statusCode := by
  obtain ⟨hs, code, sent⟩ := res
  by_cases hc : code = 0 <;> cases hs <;>
    simp [renderStaticErrorPage, safeSend, ExpressRes.send,
      ExpressRes.status, hc]

/-- C9: `renderStaticErrorPage` always leaves a status code set,
defaulting an unset one to 500; the page it sends carries the non-retry
message exactly for 4xx statuses other than 404 and the retry message
otherwise. -/
theorem renderStaticErrorPage_status_and_message (res : ExpressRes) :
    (renderStaticErrorPage res).statusCode ≠ 0 ∧
    (res.statusCode = 0 → (renderStaticErrorPage res).statusCode = 500) ∧
    (res.headersSent = false →
      (renderStaticErrorPage res).sent = res.sent ++
        [[staticErrorPage (errorPageMessage
          (if res.statusCode = 0 then 500 else res.statusCode))]]) ∧
    (∀ code : Nat,
      (errorPageMessage code = noRetryMessage ↔
        400 ≤ code ∧ code < 500 ∧ code ≠ 404) ∧
      (errorPageMessage code = retryMessage ↔
        ¬(400 ≤ code ∧ code < 500 ∧ code ≠ 404))) := by
  refine ⟨?_, ?_, ?_, ?_⟩
  · rw [renderStaticErrorPage_statusCode]
    by_cases hc : res.statusCode = 0 <;> simp [hc]
  · intro h
    rw [renderStaticErrorPage_statusCode, h]
    rfl
  · intro h
    obtain ⟨hs, code, sent⟩ := res
    subst h
    by_cases hc : code = 0 <;>
      simp [renderStaticErrorPage, safeSend, ExpressRes.send,
        ExpressRes.status, hc]
  · intro code
    by_cases hcond : 400 ≤ code ∧ code < 500 ∧ code ≠ 404
    · have hmsg : errorPageMessage code = noRetryMessage := by
        simp [errorPageMessage, hcond]
      exact ⟨⟨fun _ => hcond, fun _ => hmsg⟩,
        ⟨fun hh => absurd (hmsg.symm.trans hh) messages_distinct,
          fun hn => absurd hcond hn⟩⟩
    · have hmsg : errorPageMessage code = retryMessage := by
        simp [errorPageMessage, hcond]
      exact ⟨⟨fun hh => absurd (hmsg.symm.trans hh).symm messages_distinct,
        fun hc => absurd hc hcond⟩,
        ⟨fun _ => hcond, fun _ => hmsg⟩⟩

/-- Witness for C9: a fresh response with no status code set ends up
with status 500. -/
theorem renderStaticErrorPage_witness :
    (renderStaticErrorPage ⟨false, 0, []⟩).statusCode = 500 :=
  (renderStaticErrorPage_status_and_message ⟨false, 0, []⟩).2.1 rfl

/-- C10: `loadPWA` never rejects: it resolves for every outcome of
`initializePWA`, and on a rejection the error is dispatched to the store
through `addErrorToReport` instead of propagating. -/
theorem loadPWA_never_rejects (init : Except String Unit)
    (store : List ReduxAction) :
    (loadPWA init store).1 = Except.ok () ∧
    (∀ e : String, init = Except.error e →
      (loadPWA init store).2 = store ++ [ReduxAction.addErrorToReport e]) ∧
    (init = Except.ok () → (loadPWA init store).2 = store) := by
  cases init with
  | ok u =>
    exact ⟨rfl, fun e he => Except.noConfusion he, fun _ => rfl⟩
  | error e =>
    refine ⟨rfl, ?_, fun h => Except.noConfusion h⟩
    intro e' he'
    injection he' with h
    subst h
    rfl

/-- Witness for C10: a rejection of the service-worker initialization is
reported to the store and the returned promise still resolves. -/
theorem loadPWA_never_rejects_witness :
    (loadPWA (Except.error "sw failed") []).1 = Except.ok () ∧
    (loadPWA (Except.error "sw failed") []).2 =
      [] ++ [ReduxAction.addErrorToReport "sw failed"] :=
  ⟨(loadPWA_never_rejects (Except.error "sw failed") []).1,
    (loadPWA_never_rejects (Except.error "sw failed") []).2.1
      "sw failed" rfl⟩

end OneApp
